import Mathlib

/-!
Shallow embedding of `snowflake.py`: the `Snowflake` identifier value type
(validation, decoding, encoding) and the stateful `SnowflakeGenerator`
(construction and `__next__`).  Python's unbounded `int` is modelled by `ℤ`;
Python exceptions are modelled by `Except SnowError`; the wall clock
(`int(time() * 1000)`) is passed in explicitly as an argument.  Bitwise
operators `|` and `&` on `ℤ` are `Int.lor` / `Int.land`, and `<<` / `>>`
are the `ℤ` shift instances; on non-negative operands these agree with
Python's semantics.
-/

/-- `MAX_TS = 0b11111111111111111111111111111111111111111` (41 one bits). -/
def MAX_TS : Int := 0b11111111111111111111111111111111111111111

/-- `MAX_DATACENTER = 31`. -/
def MAX_DATACENTER : Int := 31

/-- `MAX_INSTANCE = 31`. -/
def MAX_INSTANCE : Int := 31

/-- `MAX_SEQ = 4095`. -/
def MAX_SEQ : Int := 4095

/-- Error kinds raised by the source: `ValueError` for out-of-range fields
(the spec's `RangeError`) and `OverflowError` for timestamp exhaustion. -/
inductive SnowError where
  | rangeError : SnowError
  | overflowError : SnowError
deriving DecidableEq, Repr

/-- The `Snowflake` frozen dataclass: five integer fields. -/
structure Snowflake where
  timestamp : Int
  datacenter : Int
  «instance» : Int
  epoch : Int
  seq : Int
deriving DecidableEq, Repr

/-- Construction of a `Snowflake`: dataclass `__init__` followed by
`__post_init__`, which checks the five bounds in source order and raises
`ValueError` on the first violation. -/
def Snowflake.create (timestamp datacenter inst epoch seq : Int) :
    Except SnowError Snowflake :=
  if epoch < 0 then .error .rangeError
  else if ¬(0 ≤ timestamp ∧ timestamp ≤ MAX_TS) then .error .rangeError
  else if ¬(0 ≤ datacenter ∧ datacenter ≤ MAX_DATACENTER) then .error .rangeError
  else if ¬(0 ≤ inst ∧ inst ≤ MAX_INSTANCE) then .error .rangeError
  else if ¬(0 ≤ seq ∧ seq ≤ MAX_SEQ) then .error .rangeError
  else .ok ⟨timestamp, datacenter, inst, epoch, seq⟩

/-- `Snowflake.parse`: extract the packed fields by shift-and-mask and run
the same validation as construction. -/
def Snowflake.parse (snowflake : Int) (epoch : Int := 0) :
    Except SnowError Snowflake :=
  Snowflake.create (snowflake >>> 22)
    (Int.land (snowflake >>> 17) MAX_DATACENTER)
    (Int.land (snowflake >>> 12) MAX_INSTANCE)
    epoch
    (Int.land snowflake MAX_SEQ)

/-- `Snowflake.value`: pack the four fields back into one integer,
`(timestamp << 22) | (datacenter << 17) | (instance << 12) | seq`. -/
def Snowflake.value (s : Snowflake) : Int :=
  Int.lor (Int.lor (Int.lor (s.timestamp <<< 22) (s.datacenter <<< 17))
    (s.«instance» <<< 12)) s.seq

/-- `milliseconds` derived property: `timestamp + epoch`. -/
def Snowflake.milliseconds (s : Snowflake) : Int :=
  s.timestamp + s.epoch

/-- The mutable state of a `SnowflakeGenerator`:
`_epoch`, `_ts` (last timestamp relative to the epoch), `_inf`
(precomputed `(datacenter << 17) | (instance << 12)`) and `_seq`. -/
structure SnowflakeGenerator where
  _epoch : Int
  _ts : Int
  _inf : Int
  _seq : Int
deriving DecidableEq, Repr

/-- `SnowflakeGenerator.__init__`.  `current` is the sampled wall clock
`int(time() * 1000)`.  The `timestamp` keyword defaults to `None`; the
source computes `timestamp = timestamp or current`, so both `None` and the
falsy value `0` are replaced by `current`. -/
def SnowflakeGenerator.init (datacenter inst : Int) (seq : Int) (epoch : Int)
    (timestamp : Option Int) (current : Int) :
    Except SnowError SnowflakeGenerator :=
  if current - epoch ≥ MAX_TS then .error .overflowError
  else
    let timestamp := match timestamp with
      | none => current
      | some t => if t = 0 then current else t
    if timestamp < 0 ∨ timestamp > current then .error .rangeError
    else if epoch < 0 ∨ epoch > current then .error .rangeError
    else if datacenter < 0 ∨ datacenter > MAX_DATACENTER then .error .rangeError
    else if inst < 0 ∨ inst > MAX_INSTANCE then .error .rangeError
    else if seq < 0 ∨ seq > MAX_SEQ then .error .rangeError
    else .ok ⟨epoch, timestamp - epoch,
      Int.lor (datacenter <<< 17) (inst <<< 12), seq⟩

/-- `SnowflakeGenerator.__next__`.  `now` is the sampled wall clock
`int(time() * 1000)`; the result pairs the post-call state with the
returned value (`some id`, or `none` for Python's `None` sentinel). -/
def SnowflakeGenerator.next (g : SnowflakeGenerator) (now : Int) :
    Except SnowError (SnowflakeGenerator × Option Int) :=
  let current := now - g._epoch
  if current ≥ MAX_TS then .error .overflowError
  else if g._ts = current then
    if g._seq = MAX_SEQ then .ok (g, none)
    else
      let g1 : SnowflakeGenerator := { g with _seq := g._seq + 1, _ts := current }
      .ok (g1, some (Int.lor (Int.lor (g1._ts <<< 22) g1._inf) g1._seq))
  else if g._ts > current then .ok (g, none)
  else
    let g1 : SnowflakeGenerator := { g with _seq := 0, _ts := current }
    .ok (g1, some (Int.lor (Int.lor (g1._ts <<< 22) g1._inf) g1._seq))

/-- Run `__next__` `n` times with a fixed wall clock `now`, collecting the
returned values in order. -/
def SnowflakeGenerator.runN (g : SnowflakeGenerator) (now : Int) :
    Nat → Except SnowError (SnowflakeGenerator × List (Option Int))
  | 0 => .ok (g, [])
  | n + 1 =>
    match g.next now with
    | .error e => .error e
    | .ok (g1, o) =>
      match g1.runN now n with
      | .error e => .error e
      | .ok (g2, os) => .ok (g2, o :: os)
/-- Disjoint bitwise or is addition: if `b` fits in the low `k` bits, then
`2 ^ k * q ||| b = 2 ^ k * q + b`. -/
theorem twoPowMulLorEqAdd : ∀ (k q b : ℕ), b < 2 ^ k → 2 ^ k * q ||| b = 2 ^ k * q + b := by
  intro k
  induction k with
  | zero =>
    intro q b hb
    have hb0 : b = 0 := by omega
    subst hb0
    simp
  | succ k ih =>
    intro q b hb
    have hdecomp := Nat.bit_decomp b
    have hb2 : b.div2 < 2 ^ k := by
      rw [Nat.div2_val]
      have : b < 2 * 2 ^ k := by
        have : 2 ^ (k + 1) = 2 * 2 ^ k := by ring
        omega
      omega
    have h1 : 2 ^ (k + 1) * q = Nat.bit false (2 ^ k * q) := by
      rw [Nat.bit_val]
      simp only [Bool.toNat_false]
      ring
    calc 2 ^ (k + 1) * q ||| b
        = Nat.bit false (2 ^ k * q) ||| Nat.bit b.bodd b.div2 := by rw [← h1, hdecomp]
      _ = Nat.bit (false || b.bodd) (2 ^ k * q ||| b.div2) := Nat.lor_bit _ _ _ _
      _ = Nat.bit b.bodd (2 ^ k * q + b.div2) := by rw [Bool.false_or, ih _ _ hb2]
      _ = 2 ^ (k + 1) * q + b := by
          rw [Nat.bit_val]
          have hv := Nat.bit_val b.bodd b.div2
          rw [hdecomp] at hv
          have hp : 2 ^ (k + 1) * q = 2 * (2 ^ k * q) := by ring
          omega

theorem natLand31 (x : ℕ) : x &&& 31 = x % 32 := by
  have h := Nat.and_pow_two_sub_one_eq_mod x 5
  norm_num at h
  exact h

theorem natLand4095 (x : ℕ) : x &&& 4095 = x % 4096 := by
  have h := Nat.and_pow_two_sub_one_eq_mod x 12
  norm_num at h
  exact h

/-- Packing four fields by shift-and-or equals plain arithmetic, provided the
three low fields are within their bit widths. -/
theorem natPackEq (t d i q : ℕ) (hd : d < 32) (hi : i < 32) (hq : q < 4096) :
    ((t <<< 22 ||| d <<< 17) ||| i <<< 12) ||| q
      = 2 ^ 22 * t + 2 ^ 17 * d + 2 ^ 12 * i + q := by
  rw [Nat.shiftLeft_eq, Nat.shiftLeft_eq, Nat.shiftLeft_eq]
  have e1 : t * 2 ^ 22 = 2 ^ 22 * t := by ring
  have s1 : 2 ^ 22 * t ||| d * 2 ^ 17 = 2 ^ 22 * t + d * 2 ^ 17 :=
    twoPowMulLorEqAdd 22 t (d * 2 ^ 17) (by norm_num; omega)
  have e2 : 2 ^ 22 * t + d * 2 ^ 17 = 2 ^ 17 * (32 * t + d) := by ring
  have s2 : 2 ^ 17 * (32 * t + d) ||| i * 2 ^ 12 = 2 ^ 17 * (32 * t + d) + i * 2 ^ 12 :=
    twoPowMulLorEqAdd 17 (32 * t + d) (i * 2 ^ 12) (by norm_num; omega)
  have e3 : 2 ^ 17 * (32 * t + d) + i * 2 ^ 12 = 2 ^ 12 * (1024 * t + 32 * d + i) := by ring
  have s3 : 2 ^ 12 * (1024 * t + 32 * d + i) ||| q = 2 ^ 12 * (1024 * t + 32 * d + i) + q :=
    twoPowMulLorEqAdd 12 (1024 * t + 32 * d + i) q (by norm_num; omega)
  rw [e1, s1, e2, s2, e3, s3]
  ring

theorem intShiftLeftToNat (x : ℤ) (hx : 0 ≤ x) (k : ℕ) :
    x <<< (k : ℤ) = ((x.toNat <<< k : ℕ) : ℤ) := by
  obtain ⟨n, rfl⟩ := Int.eq_ofNat_of_zero_le hx
  rw [Int.shiftLeft_coe_nat]
  simp

theorem intShiftRightToNat (x : ℤ) (hx : 0 ≤ x) (k : ℕ) :
    x >>> (k : ℤ) = ((x.toNat >>> k : ℕ) : ℤ) := by
  obtain ⟨n, rfl⟩ := Int.eq_ofNat_of_zero_le hx
  rw [Int.shiftRight_coe_nat]
  simp

theorem intLorCoe (m n : ℕ) : Int.lor (↑m) (↑n) = ((m ||| n : ℕ) : ℤ) := rfl

theorem intLandCoe (m n : ℕ) : Int.land (↑m) (↑n) = ((m &&& n : ℕ) : ℤ) := rfl

theorem intShiftLeft22 (x : ℤ) (hx : 0 ≤ x) :
    x <<< (22 : ℤ) = ((x.toNat <<< 22 : ℕ) : ℤ) := by
  simpa using intShiftLeftToNat x hx 22

theorem intShiftLeft17 (x : ℤ) (hx : 0 ≤ x) :
    x <<< (17 : ℤ) = ((x.toNat <<< 17 : ℕ) : ℤ) := by
  simpa using intShiftLeftToNat x hx 17

theorem intShiftLeft12 (x : ℤ) (hx : 0 ≤ x) :
    x <<< (12 : ℤ) = ((x.toNat <<< 12 : ℕ) : ℤ) := by
  simpa using intShiftLeftToNat x hx 12

theorem intShiftRight22 (x : ℤ) (hx : 0 ≤ x) :
    x >>> (22 : ℤ) = ((x.toNat / 2 ^ 22 : ℕ) : ℤ) := by
  rw [show ((x.toNat / 2 ^ 22 : ℕ) : ℤ) = ((x.toNat >>> 22 : ℕ) : ℤ) by
    rw [Nat.shiftRight_eq_div_pow]]
  simpa using intShiftRightToNat x hx 22

theorem intShiftRight17 (x : ℤ) (hx : 0 ≤ x) :
    x >>> (17 : ℤ) = ((x.toNat / 2 ^ 17 : ℕ) : ℤ) := by
  rw [show ((x.toNat / 2 ^ 17 : ℕ) : ℤ) = ((x.toNat >>> 17 : ℕ) : ℤ) by
    rw [Nat.shiftRight_eq_div_pow]]
  simpa using intShiftRightToNat x hx 17

theorem intShiftRight12 (x : ℤ) (hx : 0 ≤ x) :
    x >>> (12 : ℤ) = ((x.toNat / 2 ^ 12 : ℕ) : ℤ) := by
  rw [show ((x.toNat / 2 ^ 12 : ℕ) : ℤ) = ((x.toNat >>> 12 : ℕ) : ℤ) by
    rw [Nat.shiftRight_eq_div_pow]]
  simpa using intShiftRightToNat x hx 12

theorem intLand31 (x : ℤ) (hx : 0 ≤ x) :
    Int.land x 31 = ((x.toNat % 32 : ℕ) : ℤ) := by
  obtain ⟨n, rfl⟩ := Int.eq_ofNat_of_zero_le hx
  rw [show (31 : ℤ) = ((31 : ℕ) : ℤ) by norm_num, intLandCoe, natLand31]
  simp

theorem intLand4095 (x : ℤ) (hx : 0 ≤ x) :
    Int.land x 4095 = ((x.toNat % 4096 : ℕ) : ℤ) := by
  obtain ⟨n, rfl⟩ := Int.eq_ofNat_of_zero_le hx
  rw [show (4095 : ℤ) = ((4095 : ℕ) : ℤ) by norm_num, intLandCoe, natLand4095]
  simp

/-- `Snowflake.value`-shaped packing on `ℤ` equals plain arithmetic. -/
theorem intPackEq (t d i q : ℤ) (ht : 0 ≤ t) (hd : 0 ≤ d) (hd' : d < 32)
    (hi : 0 ≤ i) (hi' : i < 32) (hq : 0 ≤ q) (hq' : q < 4096) :
    Int.lor (Int.lor (Int.lor (t <<< (22 : ℤ)) (d <<< (17 : ℤ))) (i <<< (12 : ℤ))) q
      = 2 ^ 22 * t + 2 ^ 17 * d + 2 ^ 12 * i + q := by
  obtain ⟨tn, rfl⟩ := Int.eq_ofNat_of_zero_le ht
  obtain ⟨dn, rfl⟩ := Int.eq_ofNat_of_zero_le hd
  obtain ⟨im, rfl⟩ := Int.eq_ofNat_of_zero_le hi
  obtain ⟨qn, rfl⟩ := Int.eq_ofNat_of_zero_le hq
  rw [intShiftLeft22 _ (by positivity), intShiftLeft17 _ (by positivity),
    intShiftLeft12 _ (by positivity)]
  simp only [Int.toNat_natCast]
  rw [intLorCoe, intLorCoe, intLorCoe,
    natPackEq tn dn im qn (by exact_mod_cast hd') (by exact_mod_cast hi')
      (by exact_mod_cast hq')]
  push_cast
  ring

/-- Packing in the shape used by `SnowflakeGenerator.__next__`, where
`_inf = (datacenter << 17) | (instance << 12)` is pre-computed. -/
theorem intPackGenEq (t d i q : ℤ) (ht : 0 ≤ t) (hd : 0 ≤ d) (hd' : d < 32)
    (hi : 0 ≤ i) (hi' : i < 32) (hq : 0 ≤ q) (hq' : q < 4096) :
    Int.lor (Int.lor (t <<< (22 : ℤ)) (Int.lor (d <<< (17 : ℤ)) (i <<< (12 : ℤ)))) q
      = 2 ^ 22 * t + 2 ^ 17 * d + 2 ^ 12 * i + q := by
  obtain ⟨tn, rfl⟩ := Int.eq_ofNat_of_zero_le ht
  obtain ⟨dn, rfl⟩ := Int.eq_ofNat_of_zero_le hd
  obtain ⟨im, rfl⟩ := Int.eq_ofNat_of_zero_le hi
  obtain ⟨qn, rfl⟩ := Int.eq_ofNat_of_zero_le hq
  rw [intShiftLeft22 _ (by positivity), intShiftLeft17 _ (by positivity),
    intShiftLeft12 _ (by positivity)]
  simp only [Int.toNat_natCast]
  rw [intLorCoe, intLorCoe, intLorCoe, ← Nat.lor_assoc,
    natPackEq tn dn im qn (by exact_mod_cast hd') (by exact_mod_cast hi')
      (by exact_mod_cast hq')]
  push_cast
  ring

/-- Extracting the sequence and timestamp portions from a packed value. -/
theorem intExtract (t d i q : ℤ) (ht : 0 ≤ t) (hd : 0 ≤ d) (hd' : d < 32)
    (hi : 0 ≤ i) (hi' : i < 32) (hq : 0 ≤ q) (hq' : q < 4096) :
    Int.land (2 ^ 22 * t + 2 ^ 17 * d + 2 ^ 12 * i + q) 4095 = q ∧
      (2 ^ 22 * t + 2 ^ 17 * d + 2 ^ 12 * i + q) >>> (22 : ℤ) = t := by
  obtain ⟨tn, rfl⟩ := Int.eq_ofNat_of_zero_le ht
  obtain ⟨dn, rfl⟩ := Int.eq_ofNat_of_zero_le hd
  obtain ⟨im, rfl⟩ := Int.eq_ofNat_of_zero_le hi
  obtain ⟨qn, rfl⟩ := Int.eq_ofNat_of_zero_le hq
  have hd2 : dn < 32 := by exact_mod_cast hd'
  have hi2 : im < 32 := by exact_mod_cast hi'
  have hq2 : qn < 4096 := by exact_mod_cast hq'
  have hsum : (2 ^ 22 * (tn : ℤ) + 2 ^ 17 * dn + 2 ^ 12 * im + qn)
      = ((2 ^ 22 * tn + 2 ^ 17 * dn + 2 ^ 12 * im + qn : ℕ) : ℤ) := by
    push_cast
    ring
  rw [hsum, intLand4095 _ (by positivity), intShiftRight22 _ (by positivity)]
  simp only [Int.toNat_natCast]
  constructor
  · congr 1
    omega
  · congr 1
    omega

/-- `Snowflake.create` as a single bounds test. -/
theorem createEqIte (t d i e q : Int) :
    Snowflake.create t d i e q =
      if 0 ≤ e ∧ 0 ≤ t ∧ t ≤ MAX_TS ∧ 0 ≤ d ∧ d ≤ MAX_DATACENTER
          ∧ 0 ≤ i ∧ i ≤ MAX_INSTANCE ∧ 0 ≤ q ∧ q ≤ MAX_SEQ
      then .ok ⟨t, d, i, e, q⟩ else .error .rangeError := by
  unfold Snowflake.create
  split_ifs <;> first | rfl | omega

/-- `Snowflake.parse` of a non-negative integer, with the extracted fields
written in plain arithmetic over `ℕ`. -/
theorem parseEq (x e : Int) (hx : 0 ≤ x) :
    Snowflake.parse x e =
      Snowflake.create ((x.toNat / 2 ^ 22 : ℕ) : ℤ) ((x.toNat / 2 ^ 17 % 32 : ℕ) : ℤ)
        ((x.toNat / 2 ^ 12 % 32 : ℕ) : ℤ) e ((x.toNat % 4096 : ℕ) : ℤ) := by
  unfold Snowflake.parse
  rw [show MAX_DATACENTER = (31 : ℤ) from rfl, show MAX_INSTANCE = (31 : ℤ) from rfl,
    show MAX_SEQ = (4095 : ℤ) from rfl]
  rw [intShiftRight22 x hx, intShiftRight17 x hx, intShiftRight12 x hx]
  rw [intLand31 _ (by positivity), intLand31 _ (by positivity), intLand4095 x hx]
  simp only [Int.toNat_natCast]

/-- `__next__` in the same millisecond with sequence below the maximum:
increment the sequence and return a packed id. -/
theorem nextSameMs (g : SnowflakeGenerator) (now : Int)
    (hsame : g._ts = now - g._epoch) (hover : now - g._epoch < MAX_TS)
    (hseq : g._seq ≠ MAX_SEQ) :
    g.next now = .ok ({ g with _seq := g._seq + 1 },
      some (Int.lor (Int.lor (g._ts <<< (22 : ℤ)) g._inf) (g._seq + 1))) := by
  unfold SnowflakeGenerator.next
  rw [if_neg (by omega), if_pos hsame, if_neg hseq]
  rw [← hsame]

/-- `__next__` in the same millisecond with the sequence exhausted:
return the sentinel and leave the state unchanged. -/
theorem nextExhausted (g : SnowflakeGenerator) (now : Int)
    (hsame : g._ts = now - g._epoch) (hover : now - g._epoch < MAX_TS)
    (hseq : g._seq = MAX_SEQ) :
    g.next now = .ok (g, none) := by
  unfold SnowflakeGenerator.next
  rw [if_neg (by omega), if_pos hsame, if_pos hseq]

/-- `__next__` with a clock behind the last used millisecond:
return the sentinel and leave the state unchanged. -/
theorem nextBackward (g : SnowflakeGenerator) (now : Int)
    (hback : g._ts > now - g._epoch) (hover : now - g._epoch < MAX_TS) :
    g.next now = .ok (g, none) := by
  unfold SnowflakeGenerator.next
  rw [if_neg (by omega), if_neg (by omega), if_pos hback]

/-- `__next__` on a fresh millisecond: reset the sequence to `0`,
advance `_ts` and return a packed id. -/
theorem nextFresh (g : SnowflakeGenerator) (now : Int)
    (hfresh : g._ts < now - g._epoch) (hover : now - g._epoch < MAX_TS) :
    g.next now = .ok ({ g with _seq := 0, _ts := now - g._epoch },
      some (Int.lor (Int.lor ((now - g._epoch) <<< (22 : ℤ)) g._inf) 0)) := by
  unfold SnowflakeGenerator.next
  rw [if_neg (by omega), if_neg (by omega), if_neg (by omega)]

/-- `__next__` when the epoch is exhausted raises `OverflowError`. -/
theorem nextOverflow (g : SnowflakeGenerator) (now : Int)
    (hover : now - g._epoch ≥ MAX_TS) :
    g.next now = .error .overflowError := by
  unfold SnowflakeGenerator.next
  rw [if_pos hover]

/-- Running `__next__` `n` times within one millisecond, starting below the
sequence cap: every call succeeds, the sequence advances by one per call,
and the `k`-th returned id packs sequence `_seq + (k + 1)`. -/
theorem runSameMs (now : Int) : ∀ (n : Nat) (g : SnowflakeGenerator),
    g._ts = now - g._epoch → now - g._epoch < MAX_TS →
    g._seq + n ≤ MAX_SEQ →
    ∃ outs, g.runN now n = .ok ({ g with _seq := g._seq + n }, outs) ∧
      outs.length = n ∧
      ∀ k, k < n → outs.get? k
        = some (some (Int.lor (Int.lor (g._ts <<< (22 : ℤ)) g._inf) (g._seq + (k + 1)))) := by
  intro n
  induction n with
  | zero =>
    intro g hsame hover _
    refine ⟨[], ?_, rfl, by omega⟩
    simp [SnowflakeGenerator.runN]
  | succ n ih =>
    intro g hsame hover hseq
    have hne : g._seq ≠ MAX_SEQ := by
      push_cast at hseq
      omega
    have hstep := nextSameMs g now hsame hover hne
    have hih := ih { g with _seq := g._seq + 1 } hsame hover (by push_cast at hseq ⊢; omega)
    obtain ⟨outs, hrun, hlen, hget⟩ := hih
    dsimp only at hrun hget
    refine ⟨some (Int.lor (Int.lor (g._ts <<< (22 : ℤ)) g._inf) (g._seq + 1)) :: outs,
      ?_, by simp [hlen], ?_⟩
    · show SnowflakeGenerator.runN g now (n + 1) = _
      unfold SnowflakeGenerator.runN
      rw [hstep]
      dsimp only
      rw [hrun]
      dsimp only
      rw [show g._seq + 1 + (n : ℤ) = g._seq + ((n : ℕ) + 1 : ℕ) by push_cast; ring]
    · intro k hk
      match k with
      | 0 =>
        simp
      | k + 1 =>
        have hk2 : k < n := by omega
        have h2 := hget k hk2
        simp only [List.get?_cons_succ]
        rw [show g._seq + (((k + 1 : ℕ) : ℤ) + 1) = g._seq + 1 + ((k : ℤ) + 1) by
          push_cast; ring]
        exact h2

theorem MAX_TS_val : MAX_TS = 2199023255551 := rfl

theorem MAX_DATACENTER_val : MAX_DATACENTER = 31 := rfl

theorem MAX_INSTANCE_val : MAX_INSTANCE = 31 := rfl

theorem MAX_SEQ_val : MAX_SEQ = 4095 := rfl

/-- C3 counterexample: `MAX_TS` is not `8796093022207` (it is `2 ^ 41 - 1`,
not `2 ^ 43 - 1`), and constructing an identifier with
`timestamp = 8796093022207` fails the timestamp bound. -/
theorem C3_counterexample :
    MAX_TS ≠ 8796093022207 ∧
      Snowflake.create 8796093022207 0 0 0 0 = .error .rangeError :=
  ⟨by decide, rfl⟩

/-- C3 (amended): the timestamp field bound `MAX_TS` is the 41-bit maximum
`2199023255551`, so any timestamp in `0..2199023255551` passes the timestamp
check; in particular `timestamp = 2199023255551` constructs successfully. -/
theorem C3_timestamp_bound (t : Int) (h0 : 0 ≤ t) (h1 : t ≤ 2199023255551) :
    MAX_TS = 2199023255551 ∧
      Snowflake.create t 0 0 0 0 = .ok ⟨t, 0, 0, 0, 0⟩ := by
  refine ⟨rfl, ?_⟩
  have hM := MAX_TS_val
  rw [createEqIte]
  split_ifs with h
  · rfl
  · exfalso
    apply h
    exact ⟨by decide, h0, by omega, by decide, by decide, by decide, by decide,
      by decide, by decide⟩

/-- C3 witness: the amended bound at the endpoint `2199023255551`. -/
theorem C3_witness :
    MAX_TS = 2199023255551 ∧
      Snowflake.create 2199023255551 0 0 0 0 = .ok ⟨2199023255551, 0, 0, 0, 0⟩ :=
  C3_timestamp_bound 2199023255551 (by decide) (by decide)

/-- C4: construction succeeds with exactly the supplied five fields when all
bounds hold, and fails with the range error exactly otherwise; each of the
five listed boundary violations fails.  Immutability and absence of side
effects are inherent to the embedding: `Snowflake.create` is a pure function
returning a record. -/
theorem C4_bounds_enforcement :
    (∀ t d i e q : ℤ, Snowflake.create t d i e q =
      if 0 ≤ e ∧ 0 ≤ t ∧ t ≤ MAX_TS ∧ 0 ≤ d ∧ d ≤ MAX_DATACENTER
          ∧ 0 ≤ i ∧ i ≤ MAX_INSTANCE ∧ 0 ≤ q ∧ q ≤ MAX_SEQ
      then .ok ⟨t, d, i, e, q⟩ else .error .rangeError)
    ∧ Snowflake.create (MAX_TS + 1) 0 0 0 0 = .error .rangeError
    ∧ Snowflake.create 0 32 0 0 0 = .error .rangeError
    ∧ Snowflake.create 0 0 32 0 0 = .error .rangeError
    ∧ Snowflake.create 0 0 0 0 4096 = .error .rangeError
    ∧ Snowflake.create 0 0 0 (-1) 0 = .error .rangeError :=
  ⟨createEqIte, rfl, rfl, rfl, rfl, rfl⟩

/-- C7: when the clock reports a millisecond strictly before `_ts` (and the
epoch is not exhausted, the case specified separately as `OverflowError`),
`__next__` returns the sentinel and the state is returned unchanged, so a
later call starts from the very same state. -/
theorem C7_backward_clock (g : SnowflakeGenerator) (now : Int)
    (hback : now - g._epoch < g._ts) (hover : now - g._epoch < MAX_TS) :
    g.next now = .ok (g, none) :=
  nextBackward g now hback hover

/-- C7 witness: a generator at `_ts = 7` observing wall-clock millisecond 5. -/
theorem C7_witness :
    SnowflakeGenerator.next ⟨0, 7, 0, 0⟩ 5 = .ok (⟨0, 7, 0, 0⟩, none) :=
  C7_backward_clock ⟨0, 7, 0, 0⟩ 5 (by decide) (by decide)

/-- C9: generator construction raises `OverflowError` whenever
`current - epoch ≥ MAX_TS`, and `__next__` raises `OverflowError` whenever
`now - epoch ≥ MAX_TS` at call time. -/
theorem C9_epoch_exhaustion :
    (∀ (d i q e : ℤ) (ts : Option ℤ) (current : ℤ), current - e ≥ MAX_TS →
      SnowflakeGenerator.init d i q e ts current = .error .overflowError)
    ∧ (∀ (g : SnowflakeGenerator) (now : ℤ), now - g._epoch ≥ MAX_TS →
      g.next now = .error .overflowError) := by
  constructor
  · intro d i q e ts current h
    unfold SnowflakeGenerator.init
    rw [if_pos h]
  · intro g now h
    exact nextOverflow g now h

/-- C9 witness: both overflow paths at `current = MAX_TS`, `epoch = 0`. -/
theorem C9_witness :
    SnowflakeGenerator.init 0 0 0 0 none MAX_TS = .error .overflowError
    ∧ SnowflakeGenerator.next ⟨0, 0, 0, 0⟩ MAX_TS = .error .overflowError :=
  ⟨C9_epoch_exhaustion.1 0 0 0 0 none MAX_TS (by decide),
    C9_epoch_exhaustion.2 ⟨0, 0, 0, 0⟩ MAX_TS (by decide)⟩

/-- C10: because the source computes `timestamp = timestamp or current` and
`0` is falsy in Python, passing `timestamp = 0` behaves exactly like omitting
it: the generator starts at `last_timestamp = current - epoch`, and when the
remaining checks pass construction succeeds (so `timestamp = 0` never trips
the timestamp range check for a non-negative clock). -/
theorem C10_zero_timestamp (d i q e current : ℤ) :
    SnowflakeGenerator.init d i q e (some 0) current
      = SnowflakeGenerator.init d i q e none current
    ∧ (0 ≤ e → e ≤ current → current - e < MAX_TS →
        0 ≤ d → d ≤ MAX_DATACENTER → 0 ≤ i → i ≤ MAX_INSTANCE →
        0 ≤ q → q ≤ MAX_SEQ →
        SnowflakeGenerator.init d i q e (some 0) current
          = .ok ⟨e, current - e, Int.lor (d <<< 17) (i <<< 12), q⟩) := by
  constructor
  · rfl
  · intro he1 he2 hover hd1 hd2 hi1 hi2 hq1 hq2
    unfold SnowflakeGenerator.init
    dsimp only
    rw [if_neg (by omega), if_pos rfl, if_neg (by omega), if_neg (by omega),
      if_neg (by omega), if_neg (by omega), if_neg (by omega)]

/-- C10 witness: `timestamp = 0` with wall clock `1000` starts at
`last_timestamp = 1000`. -/
theorem C10_witness :
    SnowflakeGenerator.init 1 2 0 0 (some 0) 1000
      = SnowflakeGenerator.init 1 2 0 0 none 1000
    ∧ SnowflakeGenerator.init 1 2 0 0 (some 0) 1000
      = .ok ⟨0, 1000, Int.lor ((1 : ℤ) <<< 17) ((2 : ℤ) <<< 12), 0⟩ :=
  ⟨(C10_zero_timestamp 1 2 0 0 1000).1,
    (C10_zero_timestamp 1 2 0 0 1000).2 (by decide) (by decide) (by decide)
      (by decide) (by decide) (by decide) (by decide) (by decide) (by decide)⟩

/-- C2 counterexample: `2 ^ 63` is a valid 64-bit unsigned integer and the
epoch `0` is non-negative, yet decoding fails: the extracted timestamp
`2 ^ 63 >> 22 = 2 ^ 41` exceeds `MAX_TS = 2 ^ 41 - 1` (the timestamp is not
masked, and the field is 41 bits wide, not 42 or 43). -/
theorem C2_counterexample :
    Snowflake.parse ((2 : ℤ) ^ 63) 0 = .error .rangeError := rfl

/-- C2 (amended): for a 64-bit unsigned `raw`, decoding succeeds exactly when
the epoch is non-negative and `raw < 2 ^ 63` (equivalently, the unmasked
timestamp `raw >> 22` is at most `MAX_TS`); masking does keep the
datacenter, instance and sequence fields in range. -/
theorem C2_decode_success (x e : ℤ) (hx : 0 ≤ x) (h64 : x < 2 ^ 64) :
    (∃ s, Snowflake.parse x e = .ok s) ↔ (0 ≤ e ∧ x < 2 ^ 63) := by
  have hM := MAX_TS_val
  have hD := MAX_DATACENTER_val
  have hI := MAX_INSTANCE_val
  have hQ := MAX_SEQ_val
  have htn := Int.toNat_of_nonneg hx
  rw [parseEq x e hx, createEqIte]
  split_ifs with h
  · constructor
    · intro _
      obtain ⟨he, _, ht2, _⟩ := h
      exact ⟨he, by omega⟩
    · intro _
      exact ⟨_, rfl⟩
  · constructor
    · rintro ⟨s, hs⟩
      exact absurd hs (by simp)
    · rintro ⟨he, h63⟩
      exfalso
      apply h
      refine ⟨he, by positivity, by omega, by positivity, by omega, by positivity,
        by omega, by positivity, by omega⟩

/-- C2 witness: `raw = 2 ^ 63 - 1`, `epoch = 0` decodes successfully. -/
theorem C2_witness :
    0 ≤ ((2 : ℤ) ^ 63 - 1) ∧ (2 : ℤ) ^ 63 - 1 < 2 ^ 64 ∧
      ((∃ s, Snowflake.parse ((2 : ℤ) ^ 63 - 1) 0 = .ok s) ↔
        ((0 : ℤ) ≤ 0 ∧ (2 : ℤ) ^ 63 - 1 < 2 ^ 63)) :=
  ⟨by decide, by decide, C2_decode_success ((2 : ℤ) ^ 63 - 1) 0 (by decide) (by decide)⟩

/-- C1 counterexample: for the valid 64-bit unsigned integer `2 ^ 64 - 1`
and epoch `0`, `Encode(Decode(x, 0))` is not `x`: decoding already fails,
because the extracted timestamp exceeds `MAX_TS`. -/
theorem C1_counterexample :
    (Snowflake.parse ((2 : ℤ) ^ 64 - 1) 0).map Snowflake.value
      ≠ .ok ((2 : ℤ) ^ 64 - 1) := by
  have h : Snowflake.parse ((2 : ℤ) ^ 64 - 1) 0 = .error .rangeError := rfl
  rw [h]
  simp [Except.map]

/-- C1 (amended): both round-trip directions, with the decode-then-encode
direction restricted to `raw < 2 ^ 63` (the exact range on which decoding
succeeds, see the C2 analysis): decoding the encoding of any validly
constructed identifier with its own epoch returns the identical identifier,
and encoding the decoding of any `x` in `0..2 ^ 63 - 1` returns `x`. -/
theorem C1_round_trip :
    (∀ (t d i e q : ℤ) (s : Snowflake), Snowflake.create t d i e q = .ok s →
      Snowflake.parse s.value s.epoch = .ok s)
    ∧ (∀ x e : ℤ, 0 ≤ x → x < 2 ^ 63 → 0 ≤ e →
      (Snowflake.parse x e).map Snowflake.value = .ok x) := by
  have hM := MAX_TS_val
  have hD := MAX_DATACENTER_val
  have hI := MAX_INSTANCE_val
  have hQ := MAX_SEQ_val
  constructor
  · intro t d i e q s hs
    rw [createEqIte] at hs
    split_ifs at hs with h
    · obtain ⟨he, ht0, htM, hd0, hdM, hi0, hiM, hq0, hqM⟩ := h
      injection hs with hs
      subst hs
      show Snowflake.parse (Snowflake.value ⟨t, d, i, e, q⟩) e = .ok ⟨t, d, i, e, q⟩
      have hv : Snowflake.value ⟨t, d, i, e, q⟩
          = 2 ^ 22 * t + 2 ^ 17 * d + 2 ^ 12 * i + q := by
        unfold Snowflake.value
        exact intPackEq t d i q ht0 hd0 (by omega) hi0 (by omega) hq0 (by omega)
      have hvn : (2 ^ 22 * t + 2 ^ 17 * d + 2 ^ 12 * i + q)
          = ((2 ^ 22 * t.toNat + 2 ^ 17 * d.toNat + 2 ^ 12 * i.toNat + q.toNat : ℕ) : ℤ) := by
        push_cast
        rw [Int.toNat_of_nonneg ht0, Int.toNat_of_nonneg hd0, Int.toNat_of_nonneg hi0,
          Int.toNat_of_nonneg hq0]
      have hd32 : d.toNat < 32 := by omega
      have hi32 : i.toNat < 32 := by omega
      have hq4096 : q.toNat < 4096 := by omega
      rw [hv, hvn, parseEq _ e (by positivity)]
      simp only [Int.toNat_natCast]
      have h1 : (2 ^ 22 * t.toNat + 2 ^ 17 * d.toNat + 2 ^ 12 * i.toNat + q.toNat)
          / 2 ^ 22 = t.toNat := by omega
      have h2 : (2 ^ 22 * t.toNat + 2 ^ 17 * d.toNat + 2 ^ 12 * i.toNat + q.toNat)
          / 2 ^ 17 % 32 = d.toNat := by omega
      have h3 : (2 ^ 22 * t.toNat + 2 ^ 17 * d.toNat + 2 ^ 12 * i.toNat + q.toNat)
          / 2 ^ 12 % 32 = i.toNat := by omega
      have h4 : (2 ^ 22 * t.toNat + 2 ^ 17 * d.toNat + 2 ^ 12 * i.toNat + q.toNat)
          % 4096 = q.toNat := by omega
      rw [h1, h2, h3, h4, Int.toNat_of_nonneg ht0, Int.toNat_of_nonneg hd0,
        Int.toNat_of_nonneg hi0, Int.toNat_of_nonneg hq0]
      rw [createEqIte, if_pos ⟨he, ht0, htM, hd0, hdM, hi0, hiM, hq0, hqM⟩]
  · intro x e hx h63 he
    have htn := Int.toNat_of_nonneg hx
    rw [parseEq x e hx, createEqIte, if_pos ?_]
    · simp only [Except.map]
      have hv : Snowflake.value ⟨((x.toNat / 2 ^ 22 : ℕ) : ℤ), ((x.toNat / 2 ^ 17 % 32 : ℕ) : ℤ),
          ((x.toNat / 2 ^ 12 % 32 : ℕ) : ℤ), e, ((x.toNat % 4096 : ℕ) : ℤ)⟩
          = 2 ^ 22 * ((x.toNat / 2 ^ 22 : ℕ) : ℤ) + 2 ^ 17 * ((x.toNat / 2 ^ 17 % 32 : ℕ) : ℤ)
            + 2 ^ 12 * ((x.toNat / 2 ^ 12 % 32 : ℕ) : ℤ) + ((x.toNat % 4096 : ℕ) : ℤ) := by
        unfold Snowflake.value
        dsimp only
        exact intPackEq _ _ _ _ (by positivity) (by positivity) (by omega)
          (by positivity) (by omega) (by positivity) (by omega)
      rw [hv]
      congr 1
      omega
    · refine ⟨he, by positivity, by omega, by positivity, by omega, by positivity,
        by omega, by positivity, by omega⟩

/-- C1 witness: the spec's concrete example identifier
`(timestamp 123456789, datacenter 1, instance 2, epoch 0, seq 3)`, whose
encoding is `517815304069123`, in both directions. -/
theorem C1_witness :
    Snowflake.parse (Snowflake.value ⟨123456789, 1, 2, 0, 3⟩)
        (Snowflake.epoch ⟨123456789, 1, 2, 0, 3⟩) = .ok ⟨123456789, 1, 2, 0, 3⟩
    ∧ (Snowflake.parse 517815304069123 0).map Snowflake.value
      = .ok 517815304069123 :=
  ⟨C1_round_trip.1 123456789 1 2 0 3 ⟨123456789, 1, 2, 0, 3⟩ rfl,
    C1_round_trip.2 517815304069123 0 (by decide) (by decide) (by decide)⟩

/-- C5: with the clock frozen on the generator's current millisecond and the
sequence at least `N` below the cap, `N` consecutive `__next__` calls all
succeed, the stored sequence ends at `_seq + N` (each call increments it by
exactly 1), and the `k`-th returned id has sequence portion
`_seq + (k + 1)` — strictly increasing by 1 per call — while its timestamp
portion stays `_ts`. -/
theorem C5_monotonic_sequence (g : SnowflakeGenerator) (now : Int) (N : Nat)
    (dc inst : ℤ) (hinf : g._inf = Int.lor (dc <<< (17 : ℤ)) (inst <<< (12 : ℤ)))
    (hdc : 0 ≤ dc) (hdc31 : dc ≤ 31) (hin : 0 ≤ inst) (hin31 : inst ≤ 31)
    (hts : 0 ≤ g._ts) (hsame : g._ts = now - g._epoch)
    (hover : now - g._epoch < MAX_TS)
    (hseq0 : 0 ≤ g._seq) (hseqN : g._seq + N ≤ MAX_SEQ) :
    ∃ outs, g.runN now N = .ok ({ g with _seq := g._seq + N }, outs) ∧
      outs.length = N ∧
      ∀ k, k < N → ∃ v : ℤ, outs.get? k = some (some v) ∧
        Int.land v MAX_SEQ = g._seq + (k + 1) ∧ v >>> (22 : ℤ) = g._ts := by
  have hQ := MAX_SEQ_val
  obtain ⟨outs, hrun, hlen, hget⟩ := runSameMs now N g hsame hover hseqN
  refine ⟨outs, hrun, hlen, ?_⟩
  intro k hk
  have hkN : (k : ℤ) < (N : ℤ) := by exact_mod_cast hk
  have hNZ : (0 : ℤ) ≤ (N : ℤ) := by positivity
  have hq1 : 0 ≤ g._seq + ((k : ℤ) + 1) := by omega
  have hq2 : g._seq + ((k : ℤ) + 1) < 4096 := by omega
  have hpack : Int.lor (Int.lor (g._ts <<< (22 : ℤ)) g._inf) (g._seq + ((k : ℤ) + 1))
      = 2 ^ 22 * g._ts + 2 ^ 17 * dc + 2 ^ 12 * inst + (g._seq + ((k : ℤ) + 1)) := by
    rw [hinf]
    exact intPackGenEq g._ts dc inst (g._seq + ((k : ℤ) + 1)) hts hdc (by omega)
      hin (by omega) hq1 hq2
  have hext := intExtract g._ts dc inst (g._seq + ((k : ℤ) + 1)) hts hdc (by omega)
    hin (by omega) hq1 hq2
  refine ⟨_, hget k hk, ?_, ?_⟩
  · rw [hpack, hQ]
    exact hext.1
  · rw [hpack]
    exact hext.2

/-- C5 witness: a generator with datacenter 1, instance 2 at millisecond 5
and sequence 3 makes two same-millisecond calls. -/
theorem C5_witness :
    ∃ outs, SnowflakeGenerator.runN
        ⟨0, 5, Int.lor ((1 : ℤ) <<< (17 : ℤ)) ((2 : ℤ) <<< (12 : ℤ)), 3⟩ 5 2
      = .ok (⟨0, 5, Int.lor ((1 : ℤ) <<< (17 : ℤ)) ((2 : ℤ) <<< (12 : ℤ)),
          3 + ((2 : ℕ) : ℤ)⟩, outs) ∧
      outs.length = 2 ∧
      ∀ k, k < 2 → ∃ v : ℤ, outs.get? k = some (some v) ∧
        Int.land v MAX_SEQ = 3 + ((k : ℤ) + 1) ∧ v >>> (22 : ℤ) = 5 :=
  C5_monotonic_sequence ⟨0, 5, Int.lor ((1 : ℤ) <<< (17 : ℤ)) ((2 : ℤ) <<< (12 : ℤ)), 3⟩
    5 2 1 2 rfl (by decide) (by decide) (by decide) (by decide) (by decide) rfl
    (by decide) (by decide) (by decide)

/-- C8: whenever `__next__` returns (id or sentinel) rather than raising,
`_ts` never decreases; a sequence within `0..4095` stays within `0..4095`;
and whenever `_ts` advances to a new millisecond the sequence is reset
to 0. -/
theorem C8_generator_invariant (g : SnowflakeGenerator) (now : Int)
    (g2 : SnowflakeGenerator) (out : Option ℤ)
    (h : g.next now = .ok (g2, out)) :
    g._ts ≤ g2._ts
    ∧ (0 ≤ g._seq ∧ g._seq ≤ MAX_SEQ → 0 ≤ g2._seq ∧ g2._seq ≤ MAX_SEQ)
    ∧ (g._ts < g2._ts → g2._seq = 0) := by
  have hQ := MAX_SEQ_val
  by_cases hov : now - g._epoch ≥ MAX_TS
  · rw [nextOverflow g now hov] at h
    exact absurd h (by simp)
  · have hov2 : now - g._epoch < MAX_TS := by omega
    by_cases hsame : g._ts = now - g._epoch
    · by_cases hseq : g._seq = MAX_SEQ
      · rw [nextExhausted g now hsame hov2 hseq] at h
        simp only [Except.ok.injEq, Prod.mk.injEq] at h
        obtain ⟨rfl, rfl⟩ := h
        exact ⟨le_refl _, fun hs => hs, by omega⟩
      · rw [nextSameMs g now hsame hov2 hseq] at h
        simp only [Except.ok.injEq, Prod.mk.injEq] at h
        obtain ⟨rfl, rfl⟩ := h
        dsimp only
        exact ⟨le_refl _, fun hs => by omega, by omega⟩
    · by_cases hback : g._ts > now - g._epoch
      · rw [nextBackward g now hback hov2] at h
        simp only [Except.ok.injEq, Prod.mk.injEq] at h
        obtain ⟨rfl, rfl⟩ := h
        exact ⟨le_refl _, fun hs => hs, by omega⟩
      · have hfresh : g._ts < now - g._epoch := by omega
        rw [nextFresh g now hfresh hov2] at h
        simp only [Except.ok.injEq, Prod.mk.injEq] at h
        obtain ⟨rfl, rfl⟩ := h
        dsimp only
        exact ⟨by omega, fun hs => by omega, fun _ => rfl⟩

/-- C8 witness: a rollover call from millisecond 5 to 6. -/
theorem C8_witness :
    (5 : ℤ) ≤ 6
    ∧ (0 ≤ (3 : ℤ) ∧ (3 : ℤ) ≤ MAX_SEQ → 0 ≤ (0 : ℤ) ∧ (0 : ℤ) ≤ MAX_SEQ)
    ∧ ((5 : ℤ) < 6 → (0 : ℤ) = 0) :=
  C8_generator_invariant ⟨0, 5, 0, 3⟩ 6 ⟨0, 6, 0, 0⟩
    (some (Int.lor (Int.lor ((6 : ℤ) <<< (22 : ℤ)) 0) 0)) rfl

theorem runNSucc (g : SnowflakeGenerator) (now : Int) (n : Nat) :
    g.runN now (n + 1) = (match g.next now with
      | .error e => .error e
      | .ok (g1, o) => (match g1.runN now n with
        | .error e => .error e
        | .ok (g2, os) => .ok (g2, o :: os))) := rfl

/-- C6: with the clock still in the generator's millisecond and the sequence
already at `MAX_SEQ = 4095`, `__next__` returns the sentinel leaving the
state unchanged; and starting from a fresh millisecond, 4096 consecutive
calls within that millisecond succeed and the 4097-th returns the
sentinel. -/
theorem C6_sequence_exhaustion :
    (∀ (g : SnowflakeGenerator) (now : ℤ), g._ts = now - g._epoch →
      now - g._epoch < MAX_TS → g._seq = MAX_SEQ → g.next now = .ok (g, none))
    ∧ (∀ (g : SnowflakeGenerator) (now : ℤ), g._ts < now - g._epoch →
      now - g._epoch < MAX_TS →
      ∃ g2 outs, g.runN now 4096 = .ok (g2, outs) ∧ outs.length = 4096 ∧
        (∀ k, k < 4096 → ∃ v : ℤ, outs.get? k = some (some v)) ∧
        g2.next now = .ok (g2, none)) := by
  constructor
  · intro g now hsame hover hseq
    exact nextExhausted g now hsame hover hseq
  · intro g now hfresh hover
    have hstep := nextFresh g now hfresh hover
    have hrun := runSameMs now 4095 { g with _seq := 0, _ts := now - g._epoch }
      rfl hover (show (0 : ℤ) + ((4095 : ℕ) : ℤ) ≤ MAX_SEQ by decide)
    obtain ⟨outs, hrun1, hlen, hget⟩ := hrun
    dsimp only at hrun1 hget
    refine ⟨{ g with _ts := now - g._epoch, _seq := (0 : ℤ) + ((4095 : ℕ) : ℤ) },
      some (Int.lor (Int.lor ((now - g._epoch) <<< (22 : ℤ)) g._inf) 0) :: outs,
      ?_, by simp [hlen], ?_, ?_⟩
    · rw [show (4096 : ℕ) = 4095 + 1 from rfl, runNSucc]
      rw [hstep]
      dsimp only
      rw [hrun1]
    · intro k hk
      match k with
      | 0 => exact ⟨_, rfl⟩
      | k + 1 =>
        have h2 := hget k (by omega)
        exact ⟨_, by simp only [List.get?_cons_succ]; exact h2⟩
    · exact nextExhausted _ now rfl hover
        (show (0 : ℤ) + ((4095 : ℕ) : ℤ) = MAX_SEQ by decide)

/-- C6 witness: exhaustion at sequence 4095 in millisecond 5, and the full
fresh-millisecond run of 4096 calls followed by a sentinel. -/
theorem C6_witness :
    SnowflakeGenerator.next ⟨0, 5, 0, 4095⟩ 5 = .ok (⟨0, 5, 0, 4095⟩, none)
    ∧ ∃ g2 outs, SnowflakeGenerator.runN ⟨0, 4, 0, 7⟩ 5 4096 = .ok (g2, outs) ∧
      outs.length = 4096 ∧
      (∀ k, k < 4096 → ∃ v : ℤ, outs.get? k = some (some v)) ∧
      g2.next 5 = .ok (g2, none) :=
  ⟨C6_sequence_exhaustion.1 ⟨0, 5, 0, 4095⟩ 5 rfl (by decide) rfl,
    C6_sequence_exhaustion.2 ⟨0, 4, 0, 7⟩ 5 (by decide) (by decide)⟩
